import Mathlib

/-!
# Verification of the `Webcam` frame source (pyvidplayer2/webcam.py)

Shallow embedding of `src/pyvidplayer2/webcam.py`.  The class `Webcam` is a
single stateful frame source; we model its mutable attributes as a record
`WebcamState` and each method as an explicit state-passing function.

External collaborators are modelled as inputs:
* the capture device (`cv2.VideoCapture`): whether it opened, its native /
  negotiated resolutions, and what each `read()` call yields are passed in
  as arguments (`openOk`, `native`, `negotiated`, `read : Option F`);
* the wall clock (`time.time()`): the current time is passed in as a
  rational `now`; Python floats are modelled by exact rationals;
* the resize primitive (`cv2.resize`): an abstract pure function
  `resizeFn : F → Size → Interp → F` threaded through the operations,
  matching the spec's black-box "resize primitive boundary";
* the pygame surface: a list of blits; `blit` appends.

Pixel buffers are an abstract type `F` (the claims never inspect pixels,
only how buffers flow through the pipeline).
-/

/-- An integer pair `(width, height)`, as Python stores sizes in tuples. -/
structure Size where
  w : Int
  h : Int
deriving DecidableEq, Repr

/-- The cv2 interpolation constants `INTER_NEAREST` (0), `INTER_LINEAR` (1),
`INTER_CUBIC` (2), `INTER_AREA` (3), `INTER_LANCZOS4` (4). -/
inductive Interp where
  | nearest
  | linear
  | cubic
  | area
  | lanczos4
deriving DecidableEq, Repr

/-- A Python value that can be passed as the `interp` parameter
(`Union[str, int]` in the signature, but Python also admits `bool`, which
compares equal to `0`/`1`). -/
inductive PyVal where
  | s (v : String)
  | i (v : Int)
  | b (v : Bool)
deriving DecidableEq, Repr

/-- Python `==` on the values above: strings never equal ints, but
`True == 1` and `False == 0` because `bool` is a subtype of `int`. -/
def pyEq : PyVal → PyVal → Bool
  | .s a, .s b => a == b
  | .i a, .i b => a == b
  | .b a, .b b => a == b
  | .i a, .b b => a == (if b then (1 : Int) else 0)
  | .b a, .i b => (if a then (1 : Int) else 0) == b
  | _, _ => false

/-- The exceptions the module can raise: `WebcamNotFoundError` (from
`error.py`), `ValueError` (from `set_interp`) and the interpreter's
`ZeroDivisionError` (from `w / h` with `h = 0`). -/
inductive PyError where
  | webcamNotFound (msg : String)
  | valueError (msg : String)
  | zeroDivisionError
deriving DecidableEq, Repr

/-- Python `int(x)` on a float/rational: truncation toward zero. -/
def pyInt (q : ℚ) : Int :=
  if q < 0 then Int.ceil q else Int.floor q

/-- A renderable pygame surface built from a raw buffer: the buffer bytes
together with the size handed to `pygame.image.frombuffer`. -/
abbrev Surf (F : Type) := F × Size

/-- A blit position `(x, y)`. -/
abbrev Pos := Int × Int

/-- A destination surface, modelled as the list of blits composited onto
it, in order. -/
abbrev Surface (F : Type) := List (Surf F × Pos)

/-- The mutable attributes of a `Webcam` object (webcam.py lines 23-48).
`post_func` is the stored post-processing function, `interp` the resolved
cv2 interpolation constant, `_frames` the frame counter and `_last_tick`
the pacing clock (initially `0`). -/
structure WebcamState (F : Type) where
  original_size : Size
  current_size : Size
  aspect_ratio : ℚ
  frame_data : Option F
  frame_surf : Option (Surf F)
  active : Bool
  closed : Bool
  post_func : F → F
  interp : Interp
  fps : ℚ
  _frames : Nat
  _last_tick : ℚ

namespace Webcam

variable {F : Type}

/-- `Webcam._resize_frame`: delegates to the external `cv2.resize`
primitive. -/
def resize_frame (resizeFn : F → Size → Interp → F) (data : F) (size : Size)
    (interp : Interp) : F :=
  resizeFn data size interp

/-- `Webcam._create_frame`: `pygame.image.frombuffer(data.tobytes(),
self.current_size, "BGR")` — a surface carrying the buffer and the
current size. -/
def create_frame (st : WebcamState F) (data : F) : Surf F :=
  (data, st.current_size)

/-- `Webcam._update` (webcam.py lines 57-77).  `now` is the value of
`time.time()` and `read` the outcome of `self._vid.read()` (`none` for a
failed read).  Returns the updated state and the boolean result. -/
def update (resizeFn : F → Size → Interp → F) (st : WebcamState F)
    (now : ℚ) (read : Option F) : WebcamState F × Bool :=
  if st.active then
    if now - st._last_tick > 1 / st.fps then
      let st1 := { st with _last_tick := now }
      match read with
      | some data0 =>
          let data1 :=
            if st1.original_size ≠ st1.current_size then
              resize_frame resizeFn data0 st1.current_size st1.interp
            else data0
          let data2 := st1.post_func data1
          ({ st1 with
              frame_data := some data2
              frame_surf := some (create_frame st1 data2)
              _frames := st1._frames + 1 }, true)
      | none => (st1, false)
    else (st, false)
  else (st, false)

/-- Whether a call to `_update` at time `now` reaches the device read
(`self._vid.read()`): it must be active and past the pacing gate. -/
def readAttempted (st : WebcamState F) (now : ℚ) : Bool :=
  st.active && decide (now - st._last_tick > 1 / st.fps)

/-- `Webcam.set_interp` (webcam.py lines 91-108).  Python's
`interp in ("nearest", 0)` is membership by `==`, i.e. `pyEq`.  The
checks appear in the code's order (nearest, linear, area, cubic,
lanczos4); an unmatched token raises `ValueError` before any attribute
is assigned, so the state is unchanged on failure. -/
def set_interp (st : WebcamState F) (interp : PyVal) :
    Except PyError (WebcamState F) :=
  if pyEq interp (.s "nearest") || pyEq interp (.i 0) then
    .ok { st with interp := .nearest }
  else if pyEq interp (.s "linear") || pyEq interp (.i 1) then
    .ok { st with interp := .linear }
  else if pyEq interp (.s "area") || pyEq interp (.i 3) then
    .ok { st with interp := .area }
  else if pyEq interp (.s "cubic") || pyEq interp (.i 2) then
    .ok { st with interp := .cubic }
  else if pyEq interp (.s "lanczos4") || pyEq interp (.i 4) then
    .ok { st with interp := .lanczos4 }
  else
    .error (.valueError "Interpolation technique not recognized.")

/-- `Webcam.play`: sets `active` to `True`. -/
def play (st : WebcamState F) : WebcamState F :=
  { st with active := true }

/-- `Webcam.stop`: sets `active` to `False` and clears `frame_data` and
`frame_surf`. -/
def stop (st : WebcamState F) : WebcamState F :=
  { st with active := false, frame_data := none, frame_surf := none }

/-- `Webcam.resize` (the output resize): sets `current_size` and, when a
frame exists, immediately resizes it and rebuilds `frame_surf`. -/
def resize (resizeFn : F → Size → Interp → F) (st : WebcamState F)
    (size : Size) : WebcamState F :=
  let st1 := { st with current_size := size }
  match st1.frame_data with
  | some d =>
      let d1 := resize_frame resizeFn d st1.current_size st1.interp
      { st1 with frame_data := some d1, frame_surf := some (create_frame st1 d1) }
  | none => st1

/-- `Webcam.resize_capture`: asks the device for `size`; the device
answers with `negotiated` (what `get` reports after `set`), which becomes
`original_size`; returns whether the negotiated size equals the request.
`current_size` and `aspect_ratio` are not touched. -/
def resize_capture (st : WebcamState F) (size : Size) (negotiated : Size) :
    WebcamState F × Bool :=
  ({ st with original_size := negotiated }, decide (negotiated = size))

/-- `Webcam.change_resolution` (webcam.py lines 144-152): `w =
int(height * self.aspect_ratio)`, bumped to even by `+1` when odd, then
`self.resize((w, height))`. -/
def change_resolution (resizeFn : F → Size → Interp → F)
    (st : WebcamState F) (height : Int) : WebcamState F :=
  let w := pyInt ((height : ℚ) * st.aspect_ratio)
  let w := if w % 2 = 1 then w + 1 else w
  resize resizeFn st ⟨w, height⟩

/-- `Webcam.close`: `stop()`, release the handle, mark closed. -/
def close (st : WebcamState F) : WebcamState F :=
  { stop st with closed := true }

/-- `Webcam.set_post_func`: replaces the post-processing function. -/
def set_post_func (st : WebcamState F) (f : F → F) : WebcamState F :=
  { st with post_func := f }

/-- `Webcam.draw` (webcam.py lines 169-180): calls `_update`; if (a new
frame arrived or `force_draw`) and `frame_surf` is not `None`, blits
`frame_surf` at `pos` and returns `True`, else returns `False`. -/
def draw (resizeFn : F → Size → Interp → F) (st : WebcamState F)
    (now : ℚ) (read : Option F) (force_draw : Bool) (surf : Surface F)
    (pos : Pos) : WebcamState F × Surface F × Bool :=
  let p := update resizeFn st now read
  match p.1.frame_surf with
  | some s =>
      if p.2 || force_draw then (p.1, surf ++ [(s, pos)], true)
      else (p.1, surf, false)
  | none => (p.1, surf, false)

/-- The attribute assignments of `__init__` up to line 45: sizes and
aspect ratio from the (non-zero-height) negotiated resolution, empty
frame pair, inactive, counter and pacing clock at 0.  The `interp`
placeholder stands for the raw token stored at line 40; it is
overwritten by `set_interp` (line 47) on every path that completes
construction. -/
def init_state (post : F → F) (fps : ℚ) (original : Size) : WebcamState F :=
  { original_size := original
    current_size := original
    aspect_ratio := (original.w : ℚ) / (original.h : ℚ)
    frame_data := none
    frame_surf := none
    active := false
    closed := false
    post_func := post
    interp := .linear
    fps := fps
    _frames := 0
    _last_tick := 0 }

/-- `Webcam.__init__` (webcam.py lines 15-49).  `openOk` is whether
`cv2.VideoCapture(cam_id).isOpened()`, `native` the device's reported
native resolution, `negotiated` the resolution the device grants when
`capture_size ≠ (0,0)` is requested.  The division
`original_size[0] / original_size[1]` raises `ZeroDivisionError` when the
height is 0 — there is no guard in the code. -/
def init (post : F → F) (interpTok : PyVal) (fps : ℚ) (openOk : Bool)
    (native : Size) (captureSize : Size) (negotiated : Size) :
    Except PyError (WebcamState F) :=
  if !openOk then .error (.webcamNotFound "Failed to find a webcam.")
  else
    let original := if captureSize = ⟨0, 0⟩ then native else negotiated
    if original.h = 0 then .error .zeroDivisionError
    else
      match set_interp (init_state post fps original) interpTok with
      | .ok st1 => .ok (play st1)
      | .error e => .error e

end Webcam

/-- One caller-visible operation on a webcam, with the environment inputs
(clock value, read outcome, negotiated size) it consumes. -/
inductive Op (F : Type) where
  | update (now : ℚ) (read : Option F)
  | stop
  | play
  | resize (size : Size)
  | resize_capture (size : Size) (negotiated : Size)
  | change_resolution (height : Int)
  | close
  | draw (now : ℚ) (read : Option F) (force_draw : Bool)
  | set_interp (tok : PyVal)
  | set_post_func (f : F → F)

namespace Webcam

variable {F : Type}

/-- The state after one operation.  A `set_interp` that raises leaves
the state unchanged (the exception propagates to the caller before any
attribute is assigned); `draw`'s target surface does not feed back into
the state, so a dummy surface is used. -/
def step (resizeFn : F → Size → Interp → F) (op : Op F)
    (st : WebcamState F) : WebcamState F :=
  match op with
  | .update now read => (update resizeFn st now read).1
  | .stop => stop st
  | .play => play st
  | .resize size => resize resizeFn st size
  | .resize_capture size negotiated => (resize_capture st size negotiated).1
  | .change_resolution height => change_resolution resizeFn st height
  | .close => close st
  | .draw now read force_draw =>
      (draw resizeFn st now read force_draw [] (0, 0)).1
  | .set_interp tok =>
      match set_interp st tok with
      | .ok st1 => st1
      | .error _ => st
  | .set_post_func f => set_post_func st f

/-- The state after a sequence of operations, first operation first. -/
def steps (resizeFn : F → Size → Interp → F) (ops : List (Op F))
    (st : WebcamState F) : WebcamState F :=
  ops.foldl (fun s op => step resizeFn op s) st

end Webcam

/-! ## Concrete instances used by witnesses

The abstract buffer type is instantiated with `Nat`; the resize primitive
and the post-processing function are concrete injective-enough functions
so that pipeline stages are observable. -/

/-- A concrete stand-in for `cv2.resize` on `Nat` buffers. -/
def resizeFn0 : Nat → Size → Interp → Nat :=
  fun d _ _ => d + 1000

/-- A concrete post-processing function. -/
def post0 : Nat → Nat := fun d => d * 2

/-- A freshly constructed webcam state: native size 640×480 accepted,
default interpolation `linear`, fps 30, playing, no frame yet. -/
def stInit : WebcamState Nat :=
  { original_size := ⟨640, 480⟩
    current_size := ⟨640, 480⟩
    aspect_ratio := 640 / 480
    frame_data := none
    frame_surf := none
    active := true
    closed := false
    post_func := post0
    interp := .linear
    fps := 30
    _frames := 0
    _last_tick := 0 }

/-! ## Predicates and claim-side definitions -/

/-- The state `stop()` leaves behind: inactive with both frame slots
cleared.  Preserved by every operation except `play` (which flips
`active` but still presents nothing until a capture refills the
slots). -/
def stoppedLike {F : Type} (st : WebcamState F) : Prop :=
  st.active = false ∧ st.frame_data = none ∧ st.frame_surf = none

/-- The C7 invariant: `frame_surf` is `None` iff `frame_data` is
`None`. -/
def inSync {F : Type} (st : WebcamState F) : Prop :=
  st.frame_surf = none ↔ st.frame_data = none

/-- The width the code computes (webcam.py lines 149-151): Python
`int(height * aspect_ratio)` — truncation toward zero — bumped by 1 when
odd. -/
def codeWidth (height : Int) (ar : ℚ) : Int :=
  let w := pyInt ((height : ℚ) * ar)
  if w % 2 = 1 then w + 1 else w

/-- Modelled from the spec: the claim's width, `round(height *
AspectRatio)` "forced to the nearest even number (rounding up)".  Stated
only to be compared with `codeWidth`; the source uses `int(...)`, not
`round(...)`. -/
def specRoundWidth (height : Int) (ar : ℚ) : Int :=
  let w := round ((height : ℚ) * ar)
  if w % 2 = 1 then w + 1 else w

/-- A reachable state whose aspect ratio is 19/4 = 4.75 (a device that
negotiated a 19×4 capture; 4.75 is exactly representable as a binary
float, so the exact-rational model agrees with Python's float
arithmetic here). -/
def cst : WebcamState Nat :=
  { original_size := ⟨19, 4⟩
    current_size := ⟨19, 4⟩
    aspect_ratio := 19 / 4
    frame_data := none
    frame_surf := none
    active := true
    closed := false
    post_func := post0
    interp := .linear
    fps := 30
    _frames := 0
    _last_tick := 0 }

/-! ## C3 / C10: interpolation token resolution -/

/-- The claim's token table: the algorithm a token selects, `none` when
the token is outside the enumerated set "nearest"/0, "linear"/1,
"cubic"/2, "area"/3, "lanczos4"/4.  Membership is Python membership,
i.e. by `==` (`pyEq`). -/
def tokenAlg (v : PyVal) : Option Interp :=
  if pyEq v (.s "nearest") || pyEq v (.i 0) then some .nearest
  else if pyEq v (.s "linear") || pyEq v (.i 1) then some .linear
  else if pyEq v (.s "cubic") || pyEq v (.i 2) then some .cubic
  else if pyEq v (.s "area") || pyEq v (.i 3) then some .area
  else if pyEq v (.s "lanczos4") || pyEq v (.i 4) then some .lanczos4
  else none

/-- C3. For every token in the enumerated set, `set_interp` succeeds and
stores the corresponding algorithm, touching nothing else; for every
token outside the set (with membership decided by Python `==`, under
which `True`/`False` fall inside the set, cf. C10) it fails with a
`ValueError` and the state — in particular the previously stored
algorithm — is unchanged. -/
theorem C3_set_interp_tokens (st : WebcamState F) (v : PyVal) :
    Webcam.set_interp st v =
      (match tokenAlg v with
       | some a => .ok { st with interp := a }
       | none => .error (.valueError "Interpolation technique not recognized.")) := by
  rcases v with s | n | b
  · simp only [Webcam.set_interp, tokenAlg, pyEq, Bool.or_false]
    split_ifs with h1 h2 h3 h4 h5 <;> simp_all
  · simp only [Webcam.set_interp, tokenAlg, pyEq, Bool.false_or]
    split_ifs with h1 h2 h3 h4 h5 <;> simp_all
  · cases b <;> rfl

/-- C10. Booleans are accepted as interpolation tokens: `False` selects
nearest and `True` selects linear, because Python booleans compare equal
to the integer aliases 0 and 1. -/
theorem C10_bool_tokens_accepted (st : WebcamState F) :
    Webcam.set_interp st (.b false) = .ok { st with interp := .nearest } ∧
      Webcam.set_interp st (.b true) = .ok { st with interp := .linear } :=
  ⟨rfl, rfl⟩

/-! ## C2 / C8: pacing and read failure -/

/-- When `_update` reaches the device read, the pacing clock is set to
`now` (line 61, before the read), and `active` and `fps` are untouched —
whatever the read yields. -/
lemma Webcam.update_tick (resizeFn : F → Size → Interp → F)
    (st : WebcamState F) (now : ℚ) (read : Option F)
    (h : Webcam.readAttempted st now = true) :
    (Webcam.update resizeFn st now read).1.active = true ∧
      (Webcam.update resizeFn st now read).1.fps = st.fps ∧
      (Webcam.update resizeFn st now read).1._last_tick = now := by
  simp only [Webcam.readAttempted, Bool.and_eq_true, decide_eq_true_eq] at h
  obtain ⟨ha, hc⟩ := h
  unfold Webcam.update
  split_ifs
  cases read <;> exact ⟨ha, rfl, rfl⟩

/-- When the pacing gate is shut (`now - _last_tick ≤ 1/fps`), `_update`
is a complete no-op returning `False`. -/
lemma Webcam.update_not_elapsed (resizeFn : F → Size → Interp → F)
    (st : WebcamState F) (now : ℚ) (read : Option F)
    (h : ¬now - st._last_tick > 1 / st.fps) :
    Webcam.update resizeFn st now read = (st, false) := by
  unfold Webcam.update
  split_ifs <;> rfl

/-- C2.  Two `_update` calls less than `1/fps` apart perform at most one
device read: if the first call reached the device read (so the pacing
clock now holds `t1`), the second call at `t2` with `t2 - t1 < 1/fps`
does not reach the read and is a no-op returning `False`.  (If the first
call did not read, at most one read is immediate.) -/
theorem C2_throttled_pair (resizeFn : F → Size → Interp → F)
    (st : WebcamState F) (t1 t2 : ℚ) (read1 read2 : Option F)
    (h12 : t2 - t1 < 1 / st.fps)
    (h1 : Webcam.readAttempted st t1 = true) :
    Webcam.readAttempted (Webcam.update resizeFn st t1 read1).1 t2 = false ∧
      Webcam.update resizeFn (Webcam.update resizeFn st t1 read1).1 t2 read2 =
        ((Webcam.update resizeFn st t1 read1).1, false) := by
  obtain ⟨ha, hf, ht⟩ := Webcam.update_tick resizeFn st t1 read1 h1
  refine ⟨?_, Webcam.update_not_elapsed resizeFn _ t2 read2 ?_⟩
  · unfold Webcam.readAttempted
    rw [ht, hf, decide_eq_false h12.asymm, Bool.and_false]
  · rw [ht, hf]
    exact h12.asymm

/-- Witness for C2: a fresh state, first call at time 1 (reads), second
call at time 1 + 1/60, which is less than 1/30 later: no read, `False`,
state untouched. -/
theorem C2_witness :
    ((1 : ℚ) + 1 / 60) - 1 < 1 / stInit.fps ∧
      Webcam.readAttempted stInit 1 = true ∧
      (Webcam.readAttempted (Webcam.update resizeFn0 stInit 1 (some 5)).1
          (1 + 1 / 60) = false ∧
        Webcam.update resizeFn0 (Webcam.update resizeFn0 stInit 1 (some 5)).1
            (1 + 1 / 60) (some 6) =
          ((Webcam.update resizeFn0 stInit 1 (some 5)).1, false)) :=
  ⟨by norm_num [stInit], by norm_num [Webcam.readAttempted, stInit],
    C2_throttled_pair resizeFn0 stInit 1 (1 + 1 / 60) (some 5) (some 6)
      (by norm_num [stInit]) (by norm_num [Webcam.readAttempted, stInit])⟩

/-- C8. When `_update` reaches the device read and the read fails, the
call returns `False` and `frame_data`, `frame_surf` and `_frames` are all
unchanged (only the pacing clock moved). -/
theorem C8_read_failure_state (resizeFn : F → Size → Interp → F)
    (st : WebcamState F) (now : ℚ)
    (h : Webcam.readAttempted st now = true) :
    (Webcam.update resizeFn st now none).2 = false ∧
      (Webcam.update resizeFn st now none).1.frame_data = st.frame_data ∧
      (Webcam.update resizeFn st now none).1.frame_surf = st.frame_surf ∧
      (Webcam.update resizeFn st now none).1._frames = st._frames := by
  simp only [Webcam.readAttempted, Bool.and_eq_true, decide_eq_true_eq] at h
  obtain ⟨ha, hc⟩ := h
  unfold Webcam.update
  split_ifs
  exact ⟨rfl, rfl, rfl, rfl⟩

/-- Witness for C8: a fresh state, failing read at time 1. -/
theorem C8_witness :
    Webcam.readAttempted stInit 1 = true ∧
      ((Webcam.update resizeFn0 stInit 1 none).2 = false ∧
        (Webcam.update resizeFn0 stInit 1 none).1.frame_data = stInit.frame_data ∧
        (Webcam.update resizeFn0 stInit 1 none).1.frame_surf = stInit.frame_surf ∧
        (Webcam.update resizeFn0 stInit 1 none).1._frames = stInit._frames) :=
  ⟨by norm_num [Webcam.readAttempted, stInit], C8_read_failure_state resizeFn0 stInit 1 (by norm_num [Webcam.readAttempted, stInit])⟩

/-! ## C4: `change_resolution` width derivation -/

/-- Counterexample to C4 as stated: at height 1 with aspect ratio 4.75,
the code computes `int(4.75) = 4` (already even, kept), but the claim's
`round(4.75) = 5`, odd, bumped to 6.  The resulting output width is 4,
not the 6 the claim requires. -/
theorem C4_round_counterexample :
    (Webcam.change_resolution resizeFn0 cst 1).current_size = ⟨4, 1⟩ ∧
      specRoundWidth 1 cst.aspect_ratio = 6 ∧
      (Webcam.change_resolution resizeFn0 cst 1).current_size.w ≠
        specRoundWidth 1 cst.aspect_ratio := by
  have hfl : pyInt ((1 : Int) * (19 / 4 : ℚ)) = 4 := by
    unfold pyInt
    rw [if_neg (by norm_num)]
    rw [Int.floor_eq_iff]
    norm_num
  have hrd : round ((1 : Int) * (19 / 4 : ℚ)) = 5 := by
    rw [round_eq]
    rw [Int.floor_eq_iff]
    norm_num
  have h1 : (Webcam.change_resolution resizeFn0 cst 1).current_size = ⟨4, 1⟩ := by
    simp only [Webcam.change_resolution]
    rw [show cst.aspect_ratio = (19 / 4 : ℚ) from rfl, hfl]
    rfl
  have h2 : specRoundWidth 1 cst.aspect_ratio = 6 := by
    simp only [specRoundWidth]
    rw [show cst.aspect_ratio = (19 / 4 : ℚ) from rfl, hrd]
    rfl
  exact ⟨h1, h2, by rw [h1, h2]; decide⟩

/-- C4 (amended).  `change_resolution(h)` sets the output width to the
TRUNCATION toward zero (Python `int`) of `h * aspect_ratio` — not
`round` — forced to the nearest even number by rounding up (an odd
result becomes result+1), then delegates to the output `resize`; the
resulting width is always even. -/
theorem C4_amended_trunc_even_width (resizeFn : F → Size → Interp → F)
    (st : WebcamState F) (height : Int) :
    Webcam.change_resolution resizeFn st height =
        Webcam.resize resizeFn st ⟨codeWidth height st.aspect_ratio, height⟩ ∧
      Even (codeWidth height st.aspect_ratio) := by
  refine ⟨rfl, ?_⟩
  rw [Int.even_iff]
  simp only [codeWidth]
  split_ifs with h <;> omega


/-! ## C1: the successful-read pipeline of `_update` -/

/-- C1. For every successful device read performed by `_update`, the new
frame is produced by exactly these steps in order: resize to
`current_size` with the stored interpolation iff `current_size ≠
original_size`, then apply `post_func`; the result becomes the new
`frame_data`; `frame_surf` is rebuilt from it; `_frames` grows by exactly
1; the call returns `True`. -/
theorem C1_update_success_pipeline (resizeFn : F → Size → Interp → F)
    (st : WebcamState F) (now : ℚ) (data : F)
    (hact : st.active = true)
    (helapsed : now - st._last_tick > 1 / st.fps) :
    Webcam.update resizeFn st now (some data) =
      (let d := st.post_func
          (if st.original_size ≠ st.current_size then
            resizeFn data st.current_size st.interp
          else data)
       ({ st with
            _last_tick := now
            frame_data := some d
            frame_surf := some (d, st.current_size)
            _frames := st._frames + 1 }, true)) := by
  simp only [Webcam.update, hact, if_true, helapsed, ite_true,
    Webcam.resize_frame, Webcam.create_frame]

/-- Witness for C1 at a concrete input: a fresh state, time 1 (past the
1/30 s pacing gate), a successful read of buffer 5; no resize happens
(sizes equal) and the stored frame is `post0 5 = 10`. -/
theorem C1_witness :
    stInit.active = true ∧ (1 : ℚ) - stInit._last_tick > 1 / stInit.fps ∧
      Webcam.update resizeFn0 stInit 1 (some 5) =
        (let d := stInit.post_func
            (if stInit.original_size ≠ stInit.current_size then
              resizeFn0 5 stInit.current_size stInit.interp
            else 5)
         ({ stInit with
              _last_tick := 1
              frame_data := some d
              frame_surf := some (d, stInit.current_size)
              _frames := stInit._frames + 1 }, true)) :=
  ⟨rfl, by norm_num [stInit],
    C1_update_success_pipeline resizeFn0 stInit 1 5 rfl (by norm_num [stInit])⟩

/-! ## C5 / C6 / C7: draw behaviour and frame-pair invariants -/

/-- A successful `set_interp` only replaces the `interp` attribute. -/
lemma Webcam.set_interp_ok {F : Type} (st : WebcamState F) (tok : PyVal)
    (st' : WebcamState F) (h : Webcam.set_interp st tok = .ok st') :
    ∃ a, st' = { st with interp := a } := by
  unfold Webcam.set_interp at h
  split_ifs at h <;> cases h <;> exact ⟨_, rfl⟩

/-- `_update` on an inactive source is a complete no-op returning
`False` (webcam.py line 58). -/
lemma Webcam.update_not_active {F : Type} (resizeFn : F → Size → Interp → F)
    (st : WebcamState F) (now : ℚ) (read : Option F) (h : st.active = false) :
    Webcam.update resizeFn st now read = (st, false) := by
  unfold Webcam.update
  rw [h]
  rfl

/-- `draw` on an inactive, frame-less source touches neither the state
nor the surface and returns `False`. -/
lemma Webcam.draw_stopped {F : Type} (resizeFn : F → Size → Interp → F)
    (st : WebcamState F) (now : ℚ) (read : Option F) (force_draw : Bool)
    (surf : Surface F) (pos : Pos)
    (ha : st.active = false) (hs : st.frame_surf = none) :
    Webcam.draw resizeFn st now read force_draw surf pos = (st, surf, false) := by
  simp only [Webcam.draw, Webcam.update_not_active resizeFn st now read ha, hs]

/-- Every operation except `play` preserves the stopped shape. -/
lemma Webcam.step_stoppedLike {F : Type} (resizeFn : F → Size → Interp → F)
    (op : Op F) (st : WebcamState F) (h : stoppedLike st) (hop : op ≠ Op.play) :
    stoppedLike (Webcam.step resizeFn op st) := by
  obtain ⟨ha, hd, hs⟩ := h
  cases op with
  | update now read =>
      show stoppedLike (Webcam.update resizeFn st now read).1
      rw [Webcam.update_not_active resizeFn st now read ha]
      exact ⟨ha, hd, hs⟩
  | stop => exact ⟨rfl, rfl, rfl⟩
  | play => exact absurd rfl hop
  | resize size =>
      show stoppedLike (Webcam.resize resizeFn st size)
      simp only [Webcam.resize, hd]
      exact ⟨ha, rfl, hs⟩
  | resize_capture size negotiated => exact ⟨ha, hd, hs⟩
  | change_resolution height =>
      show stoppedLike (Webcam.resize resizeFn st _)
      simp only [Webcam.resize, hd]
      exact ⟨ha, rfl, hs⟩
  | close => exact ⟨rfl, rfl, rfl⟩
  | draw now read force_draw =>
      show stoppedLike (Webcam.draw resizeFn st now read force_draw [] (0, 0)).1
      rw [Webcam.draw_stopped resizeFn st now read force_draw [] (0, 0) ha hs]
      exact ⟨ha, hd, hs⟩
  | set_interp tok =>
      show stoppedLike (match Webcam.set_interp st tok with
        | .ok st1 => st1
        | .error _ => st)
      cases htk : Webcam.set_interp st tok with
      | ok st1 =>
          obtain ⟨a, rfl⟩ := Webcam.set_interp_ok st tok st1 htk
          exact ⟨ha, hd, hs⟩
      | error e => exact ⟨ha, hd, hs⟩
  | set_post_func f => exact ⟨ha, hd, hs⟩

/-- C5.  `stop()` yields a stopped-shape state; the stopped shape
persists under every operation sequence not containing `play`; and in
any stopped-shape state, `draw` — with either `force_draw` value and any
`poll_frame` outcome — returns `False`, composites nothing onto the
surface and leaves the state untouched. -/
theorem C5_stop_then_draw_false {F : Type} (resizeFn : F → Size → Interp → F) :
    (∀ st : WebcamState F, stoppedLike (Webcam.stop st)) ∧
      (∀ (st : WebcamState F) (ops : List (Op F)),
        stoppedLike st → Op.play ∉ ops →
        stoppedLike (Webcam.steps resizeFn ops st)) ∧
      (∀ (st : WebcamState F) (now : ℚ) (read : Option F) (force_draw : Bool)
        (surf : Surface F) (pos : Pos),
        stoppedLike st →
        Webcam.draw resizeFn st now read force_draw surf pos = (st, surf, false)) := by
  refine ⟨fun st => ⟨rfl, rfl, rfl⟩, ?_, ?_⟩
  · intro st ops
    induction ops generalizing st with
    | nil => intro h _; exact h
    | cons op rest ih =>
        intro h hmem
        rw [List.mem_cons] at hmem
        push_neg at hmem
        obtain ⟨hne, hrest⟩ := hmem
        exact ih (Webcam.step resizeFn op st)
          (Webcam.step_stoppedLike resizeFn op st h (fun he => hne he.symm)) hrest
  · intro st now read force_draw surf pos h
    exact Webcam.draw_stopped resizeFn st now read force_draw surf pos h.1 h.2.2

/-- Witness for C5: stop a fresh source, run a further `stop`, then draw
with `force_draw` both ways at a time past the pacing gate with a read
available — still `False` and no blit. -/
theorem C5_witness :
    stoppedLike (Webcam.stop stInit) ∧
      stoppedLike (Webcam.steps resizeFn0 [Op.stop] (Webcam.stop stInit)) ∧
      Webcam.draw resizeFn0 (Webcam.stop stInit) 1 (some 5) true [] (0, 0) =
        (Webcam.stop stInit, [], false) ∧
      Webcam.draw resizeFn0 (Webcam.stop stInit) 1 (some 5) false [] (0, 0) =
        (Webcam.stop stInit, [], false) :=
  ⟨(C5_stop_then_draw_false resizeFn0).1 stInit,
    (C5_stop_then_draw_false resizeFn0).2.1 (Webcam.stop stInit) [Op.stop]
      ((C5_stop_then_draw_false resizeFn0).1 stInit) (by simp),
    (C5_stop_then_draw_false resizeFn0).2.2 (Webcam.stop stInit) 1 (some 5) true [] (0, 0)
      ((C5_stop_then_draw_false resizeFn0).1 stInit),
    (C5_stop_then_draw_false resizeFn0).2.2 (Webcam.stop stInit) 1 (some 5) false [] (0, 0)
      ((C5_stop_then_draw_false resizeFn0).1 stInit)⟩

/-- `_update` never clears `frame_surf`: it either leaves it or replaces
it with a new `some`. -/
lemma Webcam.update_hasFrame {F : Type} (resizeFn : F → Size → Interp → F)
    (st : WebcamState F) (now : ℚ) (read : Option F)
    (h : st.frame_surf.isSome = true) :
    (Webcam.update resizeFn st now read).1.frame_surf.isSome = true := by
  unfold Webcam.update
  split_ifs
  · cases read with
    | some d => rfl
    | none => exact h
  · exact h
  · exact h

/-- The output resize never clears `frame_surf`. -/
lemma Webcam.resize_hasFrame {F : Type} (resizeFn : F → Size → Interp → F)
    (st : WebcamState F) (size : Size) (h : st.frame_surf.isSome = true) :
    (Webcam.resize resizeFn st size).frame_surf.isSome = true := by
  simp only [Webcam.resize]
  cases hd : st.frame_data with
  | some d => rfl
  | none => exact h

/-- The state `draw` returns is exactly the state `_update` produced:
the branch on `frame_surf`/`force_draw` only decides the blit and the
boolean. -/
lemma Webcam.draw_fst {F : Type} (resizeFn : F → Size → Interp → F)
    (st : WebcamState F) (now : ℚ) (read : Option F) (force_draw : Bool)
    (surf : Surface F) (pos : Pos) :
    (Webcam.draw resizeFn st now read force_draw surf pos).1 =
      (Webcam.update resizeFn st now read).1 := by
  simp only [Webcam.draw]
  cases (Webcam.update resizeFn st now read).1.frame_surf with
  | some s =>
      cases ((Webcam.update resizeFn st now read).2 || force_draw) <;> rfl
  | none => rfl

/-- When `_update` reaches the device read and it succeeds, the call
returns `True` and leaves a non-empty `frame_surf`. -/
lemma Webcam.update_some_true {F : Type} (resizeFn : F → Size → Interp → F)
    (st : WebcamState F) (now : ℚ) (d : F) (ha : st.active = true)
    (hc : now - st._last_tick > 1 / st.fps) :
    (Webcam.update resizeFn st now (some d)).2 = true ∧
      (Webcam.update resizeFn st now (some d)).1.frame_surf.isSome = true := by
  unfold Webcam.update
  split_ifs
  exact ⟨rfl, rfl⟩

/-- Every operation except `stop` and `close` preserves "a frame is
present". -/
lemma Webcam.step_hasFrame {F : Type} (resizeFn : F → Size → Interp → F)
    (op : Op F) (st : WebcamState F) (h : st.frame_surf.isSome = true)
    (hop1 : op ≠ Op.stop) (hop2 : op ≠ Op.close) :
    (Webcam.step resizeFn op st).frame_surf.isSome = true := by
  cases op with
  | update now read => exact Webcam.update_hasFrame resizeFn st now read h
  | stop => exact absurd rfl hop1
  | play => exact h
  | resize size => exact Webcam.resize_hasFrame resizeFn st size h
  | resize_capture size negotiated => exact h
  | change_resolution height => exact Webcam.resize_hasFrame resizeFn st _ h
  | close => exact absurd rfl hop2
  | draw now read force_draw =>
      show (Webcam.draw resizeFn st now read force_draw [] (0, 0)).1.frame_surf.isSome = true
      rw [Webcam.draw_fst]
      exact Webcam.update_hasFrame resizeFn st now read h
  | set_interp tok =>
      show (match Webcam.set_interp st tok with
        | .ok st1 => st1
        | .error _ => st).frame_surf.isSome = true
      cases htk : Webcam.set_interp st tok with
      | ok st1 =>
          obtain ⟨a, rfl⟩ := Webcam.set_interp_ok st tok st1 htk
          exact h
      | error e => exact h
  | set_post_func f => exact h

/-- C6 (amended).  Once a frame is present (`frame_surf ≠ None`), it
stays present under every operation sequence containing neither `stop`
nor `close` — the amendment C6 needs, since `stop()` clears the frame
pair — and on any such state `draw` with `force_draw = true` composites
the (possibly refreshed) PresentationFrame onto the surface and returns
`True`, even when the internal `poll_frame` returns `False`. -/
theorem C6_force_draw_stale_redraw {F : Type} (resizeFn : F → Size → Interp → F) :
    (∀ (st : WebcamState F) (ops : List (Op F)),
        st.frame_surf.isSome = true → Op.stop ∉ ops → Op.close ∉ ops →
        (Webcam.steps resizeFn ops st).frame_surf.isSome = true) ∧
      (∀ (st : WebcamState F) (now : ℚ) (read : Option F)
        (surf : Surface F) (pos : Pos),
        st.frame_surf.isSome = true →
        ∃ s, (Webcam.draw resizeFn st now read true surf pos).1.frame_surf = some s ∧
          (Webcam.draw resizeFn st now read true surf pos).2 =
            (surf ++ [(s, pos)], true)) := by
  constructor
  · intro st ops
    induction ops generalizing st with
    | nil => intro h _ _; exact h
    | cons op rest ih =>
        intro h hm1 hm2
        rw [List.mem_cons] at hm1 hm2
        push_neg at hm1 hm2
        exact ih (Webcam.step resizeFn op st)
          (Webcam.step_hasFrame resizeFn op st h (fun he => hm1.1 he.symm)
            (fun he => hm2.1 he.symm)) hm1.2 hm2.2
  · intro st now read surf pos h
    obtain ⟨s, hs⟩ := Option.isSome_iff_exists.mp
      (Webcam.update_hasFrame resizeFn st now read h)
    refine ⟨s, ?_, ?_⟩
    · rw [Webcam.draw_fst]
      exact hs
    · simp [Webcam.draw, hs]

/-- Witness for C6 (amended): capture a frame into a fresh source, run a
`play` (allowed — not `stop`/`close`), then draw at a throttled instant
(1/60 s later, `poll_frame` returns `False`) with `force_draw`: the
stale frame is composited and `draw` returns `True`. -/
theorem C6_witness :
    (Webcam.update resizeFn0 stInit 1 (some 5)).1.frame_surf.isSome = true ∧
      Op.stop ∉ [Op.play (F := Nat)] ∧ Op.close ∉ [Op.play (F := Nat)] ∧
      (Webcam.steps resizeFn0 [Op.play]
          (Webcam.update resizeFn0 stInit 1 (some 5)).1).frame_surf.isSome = true ∧
      (∃ s, (Webcam.draw resizeFn0 (Webcam.update resizeFn0 stInit 1 (some 5)).1
            (1 + 1 / 60) none true [] (0, 0)).1.frame_surf = some s ∧
          (Webcam.draw resizeFn0 (Webcam.update resizeFn0 stInit 1 (some 5)).1
            (1 + 1 / 60) none true [] (0, 0)).2 = ([((s, (0, 0)) : Surf Nat × Pos)], true)) :=
  ⟨(Webcam.update_some_true resizeFn0 stInit 1 5 rfl (by norm_num [stInit])).2,
    by simp, by simp,
    (C6_force_draw_stale_redraw resizeFn0).1 (Webcam.update resizeFn0 stInit 1 (some 5)).1
      [Op.play]
      ((Webcam.update_some_true resizeFn0 stInit 1 5 rfl (by norm_num [stInit])).2)
      (by simp) (by simp),
    (C6_force_draw_stale_redraw resizeFn0).2 (Webcam.update resizeFn0 stInit 1 (some 5)).1
      (1 + 1 / 60) none [] (0, 0)
      ((Webcam.update_some_true resizeFn0 stInit 1 5 rfl (by norm_num [stInit])).2)⟩

/-- Counterexample to C6 as stated: a frame has been captured (the
first `_update` returns `True` and fills `frame_surf`), but the
operation sequence `[stop]` follows it, after which a `draw` with
`force_draw = true` — at an instant past the pacing gate and with a
read available, so the failure is not about throttling — returns
`False`: "for every sequence of operations after that first capture"
is refuted by the sequence containing `stop()`. -/
theorem C6_stop_counterexample :
    (Webcam.update resizeFn0 stInit 1 (some 5)).2 = true ∧
      (Webcam.update resizeFn0 stInit 1 (some 5)).1.frame_surf.isSome = true ∧
      (Webcam.draw resizeFn0
          (Webcam.steps resizeFn0 [Op.stop] (Webcam.update resizeFn0 stInit 1 (some 5)).1)
          2 (some 6) true [] (0, 0)).2.2 = false := by
  obtain ⟨h1, h2⟩ := Webcam.update_some_true resizeFn0 stInit 1 5 rfl (by norm_num [stInit])
  refine ⟨h1, h2, ?_⟩
  rw [show Webcam.steps resizeFn0 [Op.stop] (Webcam.update resizeFn0 stInit 1 (some 5)).1 =
      Webcam.stop (Webcam.update resizeFn0 stInit 1 (some 5)).1 from rfl]
  rw [Webcam.draw_stopped resizeFn0 _ 2 (some 6) true [] (0, 0) rfl rfl]

/-- `_update` preserves the frame-pair synchronisation: it fills both
slots together (success) or touches neither. -/
lemma Webcam.update_inSync {F : Type} (resizeFn : F → Size → Interp → F)
    (st : WebcamState F) (now : ℚ) (read : Option F) (h : inSync st) :
    inSync (Webcam.update resizeFn st now read).1 := by
  unfold Webcam.update
  split_ifs
  · cases read with
    | some d => simp [inSync]
    | none => exact h
  · exact h
  · exact h

/-- The output resize preserves the frame-pair synchronisation: when a
frame exists both slots are rebuilt, otherwise neither is touched. -/
lemma Webcam.resize_inSync {F : Type} (resizeFn : F → Size → Interp → F)
    (st : WebcamState F) (size : Size) (h : inSync st) :
    inSync (Webcam.resize resizeFn st size) := by
  simp only [Webcam.resize]
  cases hd : st.frame_data with
  | some d => simp [inSync]
  | none => exact ⟨fun _ => rfl, fun _ => h.mpr hd⟩

/-- Every operation preserves the frame-pair synchronisation. -/
lemma Webcam.step_inSync {F : Type} (resizeFn : F → Size → Interp → F)
    (op : Op F) (st : WebcamState F) (h : inSync st) :
    inSync (Webcam.step resizeFn op st) := by
  cases op with
  | update now read => exact Webcam.update_inSync resizeFn st now read h
  | stop => exact ⟨fun _ => rfl, fun _ => rfl⟩
  | play => exact h
  | resize size => exact Webcam.resize_inSync resizeFn st size h
  | resize_capture size negotiated => exact h
  | change_resolution height => exact Webcam.resize_inSync resizeFn st _ h
  | close => exact ⟨fun _ => rfl, fun _ => rfl⟩
  | draw now read force_draw =>
      show inSync (Webcam.draw resizeFn st now read force_draw [] (0, 0)).1
      rw [Webcam.draw_fst]
      exact Webcam.update_inSync resizeFn st now read h
  | set_interp tok =>
      show inSync (match Webcam.set_interp st tok with
        | .ok st1 => st1
        | .error _ => st)
      cases htk : Webcam.set_interp st tok with
      | ok st1 =>
          obtain ⟨a, rfl⟩ := Webcam.set_interp_ok st tok st1 htk
          exact h
      | error e => exact h
  | set_post_func f => exact h

/-- C7.  `frame_surf` is `None` iff `frame_data` is `None`: the
invariant holds in every successfully constructed state and is preserved
by every operation (update/poll, stop, play, output resize, capture
resize, height resize, close, draw, and the two setters). -/
theorem C7_frame_pair_in_sync {F : Type} (resizeFn : F → Size → Interp → F) :
    (∀ (post : F → F) (tok : PyVal) (fps : ℚ) (openOk : Bool)
        (native captureSize negotiated : Size) (st : WebcamState F),
        Webcam.init post tok fps openOk native captureSize negotiated = .ok st →
        inSync st) ∧
      (∀ (st : WebcamState F) (op : Op F), inSync st → inSync (Webcam.step resizeFn op st)) := by
  constructor
  · intro post tok fps openOk native captureSize negotiated st h
    simp only [Webcam.init] at h
    generalize (if captureSize = (⟨0, 0⟩ : Size) then native else negotiated) = original at h
    split_ifs at h
    cases htk : Webcam.set_interp (Webcam.init_state post fps original) tok with
    | ok st1 =>
        rw [htk] at h
        obtain ⟨a, rfl⟩ := Webcam.set_interp_ok _ tok st1 htk
        cases h
        exact ⟨fun _ => rfl, fun _ => rfl⟩
    | error e => rw [htk] at h; cases h
  · intro st op h
    exact Webcam.step_inSync resizeFn op st h

/-- Witness for C7: a concrete successful construction (native 640×480,
token "linear") produces an in-sync state, and a `stop` on a fresh
in-sync state stays in sync. -/
theorem C7_witness :
    Webcam.init post0 (PyVal.s "linear") 30 true ⟨640, 480⟩ ⟨0, 0⟩ ⟨0, 0⟩ =
        Except.ok (Webcam.play
          { Webcam.init_state post0 30 ⟨640, 480⟩ with interp := Interp.linear }) ∧
      inSync (Webcam.play
        { Webcam.init_state post0 30 ⟨640, 480⟩ with interp := Interp.linear }) ∧
      inSync stInit ∧ inSync (Webcam.step resizeFn0 Op.stop stInit) :=
  ⟨rfl,
    (C7_frame_pair_in_sync resizeFn0).1 post0 (PyVal.s "linear") 30 true
      ⟨640, 480⟩ ⟨0, 0⟩ ⟨0, 0⟩ _ rfl,
    ⟨fun _ => rfl, fun _ => rfl⟩,
    (C7_frame_pair_in_sync resizeFn0).2 stInit Op.stop ⟨fun _ => rfl, fun _ => rfl⟩⟩

/-! ## C9: zero-height negotiated resolution at construction -/

/-- C9.  When the device opens fine but the resolution construction
works with (native or negotiated, whichever branch applies) has height
0, `__init__` raises neither `WebcamNotFoundError` nor `ValueError`: it
dies with the interpreter's unguarded `ZeroDivisionError` at the
aspect-ratio division `original_size[0] / original_size[1]` (webcam.py
line 31), before the interpolation token is even examined. -/
theorem C9_zero_height_division {F : Type} (post : F → F) (tok : PyVal)
    (fps : ℚ) (native captureSize negotiated : Size)
    (h : (if captureSize = ⟨0, 0⟩ then native else negotiated).h = 0) :
    Webcam.init post tok fps true native captureSize negotiated =
      Except.error PyError.zeroDivisionError := by
  simp [Webcam.init, h]

/-- Witness for C9: a device whose native mode is 640×0, accepted via
the `(0,0)` sentinel; construction fails with `ZeroDivisionError` (and
with an invalid interpolation token it would still be the division that
raises first). -/
theorem C9_witness :
    ((if (⟨0, 0⟩ : Size) = ⟨0, 0⟩ then (⟨640, 0⟩ : Size) else ⟨352, 288⟩).h = 0) ∧
      Webcam.init post0 (PyVal.s "linear") 30 true ⟨640, 0⟩ ⟨0, 0⟩ ⟨352, 288⟩ =
        Except.error PyError.zeroDivisionError :=
  ⟨by decide,
    C9_zero_height_division post0 (PyVal.s "linear") 30 ⟨640, 0⟩ ⟨0, 0⟩ ⟨352, 288⟩
      (by decide)⟩
